import Mathlib

/-!
Verification of the transaction request handler in src/server.js: a shallow
embedding of the five operation handlers (list, get, create, update, delete),
the identifier validation routine, the field coercions, and a model of the
persistence collaborator (a document store keyed by id), together with proofs
of the specified properties.
-/

namespace FinanceApi

/-- Numeric values of the JavaScript runtime: a finite number (modelled as a
rational), NaN, or an infinity. -/
inductive JsNumber where
  | finite (q : ℚ)
  | nan
  | inf
  | negInf
deriving DecidableEq, Repr

/-- Values of a parsed JSON request body field as seen by the handlers. -/
inductive JsValue where
  | undef
  | null
  | str (s : String)
  | num (n : JsNumber)
  | bool (b : Bool)
deriving DecidableEq, Repr

/-- Modelled from the spec: JavaScript falsiness, the language primitive behind
the create handler's presence check `if (!id)` (src/server.js line 68; the
truthiness rules themselves are not in src/). Falsy values are undefined, null,
the empty string, the number 0, NaN, and false. -/
def jsFalsy : JsValue → Bool
  | .undef => true
  | .null => true
  | .str s => s == ""
  | .num (.finite q) => q == 0
  | .num .nan => true
  | .num .inf => false
  | .num .negInf => false
  | .bool b => !b

/-- Hexadecimal digit test for the identifier format. -/
def isHexDigit (c : Char) : Bool :=
  c.isDigit || (('a' ≤ c) && (c ≤ 'f')) || (('A' ≤ c) && (c ≤ 'F'))

/-- Modelled from the spec: ObjectId.isValid of the mongodb driver (an external
collaborator, not in src/), applied to a string. Per the spec glossary, the
identifier format is "a 24-character hexadecimal string". -/
def objectIdIsValidString (s : String) : Bool :=
  s.length == 24 && s.toList.all isHexDigit

/-- The helper isValidObjectId of src/server.js lines 17-23, wrapping
ObjectId.isValid on a path-parameter string (the try/catch is vacuous in the
model, which never throws). -/
def isValidObjectId (s : String) : Bool :=
  objectIdIsValidString s

/-- Modelled from the spec: ObjectId.isValid applied to an arbitrary body
value, as in the create handler (src/server.js line 72). Only strings in the
24-character hexadecimal identifier format are valid. -/
def isValidObjectIdVal : JsValue → Bool
  | .str s => isValidObjectId s
  | _ => false

/-- Value of a list of decimal digit characters. -/
def digitsToNat (ds : List Char) : Nat :=
  ds.foldl (fun a c => a * 10 + (c.toNat - 48)) 0

/-- Modelled from the spec: the JavaScript parseFloat builtin applied by the
create/update handlers to amount (src/server.js lines 79 and 111; a runtime
primitive, not in src/). Per the spec, amount is "a decimal number, accepted
as text or number and coerced to floating-point": leading spaces and an
optional sign are consumed, the word Infinity is recognised, and otherwise the
longest decimal-digit prefix with an optional fractional part is parsed; a
string with no numeric prefix gives NaN. -/
def parseFloatString (s : String) : JsNumber :=
  let cs := s.toList.dropWhile (fun c => c == ' ')
  let signed :=
    match cs with
    | '-' :: t => (true, t)
    | '+' :: t => (false, t)
    | _ => (false, cs)
  let neg := signed.1
  let cs2 := signed.2
  if cs2.take 8 == "Infinity".toList then
    if neg then .negInf else .inf
  else
    let ip := cs2.takeWhile Char.isDigit
    let rest := cs2.dropWhile Char.isDigit
    let fp :=
      match rest with
      | '.' :: t => t.takeWhile Char.isDigit
      | _ => []
    if ip.isEmpty && fp.isEmpty then .nan
    else
      let den := 10 ^ fp.length
      let v : ℚ := mkRat ((digitsToNat ip * den + digitsToNat fp : Nat) : Int) den
      .finite (if neg then -v else v)

/-- Modelled from the spec: parseFloat on an arbitrary body value. A number
passes through (its string rendering parses back to itself); a string is
parsed; other values have no numeric prefix and give NaN. -/
def parseFloat : JsValue → JsNumber
  | .num n => n
  | .str s => parseFloatString s
  | _ => .nan

/-- Gregorian leap-year test. -/
def isLeapYear (y : Int) : Bool :=
  (y % 4 == 0 && y % 100 != 0) || y % 400 == 0

/-- Number of days in a month of a given year. -/
def daysInMonth (y : Int) (m : Nat) : Nat :=
  if m == 2 then (if isLeapYear y then 29 else 28)
  else if m == 4 || m == 6 || m == 9 || m == 11 then 30
  else 31

/-- Days since 1970-01-01 of a Gregorian calendar date (civil-days
computation, floor divisions throughout). -/
def daysFromCivil (y : Int) (m d : Nat) : Int :=
  let yy : Int := if m ≤ 2 then y - 1 else y
  let era : Int := yy.fdiv 400
  let yoe : Int := yy - era * 400
  let mp : Int := if 2 < m then (m : Int) - 3 else (m : Int) + 9
  let doy : Int := (153 * mp + 2).fdiv 5 + (d : Int) - 1
  let doe : Int := yoe * 365 + yoe.fdiv 4 - yoe.fdiv 100 + doy
  era * 146097 + doe - 719468

/-- Modelled from the spec: the date-string acceptance of the JavaScript Date
constructor (a runtime primitive, not in src/). Per the spec, date is
"an ISO-8601-like string or epoch value and coerced to a timestamp"; the model
accepts the ISO calendar-date form YYYY-MM-DD with calendar-valid components
and yields the epoch time in milliseconds, anything else being an Invalid
Date (none). -/
def parseDateString (s : String) : Option Int :=
  match s.toList with
  | [y1, y2, y3, y4, '-', m1, m2, '-', d1, d2] =>
    if ([y1, y2, y3, y4, m1, m2, d1, d2].all Char.isDigit) then
      let y : Int := (digitsToNat [y1, y2, y3, y4] : Int)
      let m := digitsToNat [m1, m2]
      let d := digitsToNat [d1, d2]
      if 1 ≤ m && m ≤ 12 && 1 ≤ d && d ≤ daysInMonth y m then
        some (daysFromCivil y m d * 86400000)
      else none
    else none
  | _ => none

/-- Truncation of a rational towards zero, as JavaScript clips a fractional
epoch argument of the Date constructor. -/
def ratTrunc (q : ℚ) : Int :=
  q.num / (q.den : Int)

/-- Modelled from the spec: the JavaScript Date constructor applied by the
create/update handlers to date (src/server.js lines 80 and 112; a runtime
primitive, not in src/). The result is the epoch time in milliseconds, with
none standing for an Invalid Date: finite numbers are epoch values, NaN and
the infinities give an Invalid Date, strings are parsed as ISO calendar
dates, null and booleans convert through their numeric value, and undefined
gives an Invalid Date. -/
def newDate : JsValue → Option Int
  | .num (.finite q) => some (ratTrunc q)
  | .num _ => none
  | .str s => parseDateString s
  | .null => some 0
  | .bool b => some (if b then 1 else 0)
  | .undef => none

/-- The Transaction entity as stored by the persistence collaborator: the
id, the coerced amount, the coerced date (none = Invalid Date), and the
description exactly as supplied. -/
structure Transaction where
  id : String
  amount : JsNumber
  date : Option Int
  description : JsValue
deriving DecidableEq, Repr

/-- The state of the document store: the collection of stored transactions. -/
abbrev Store := List Transaction

/-- Modelled from the spec: the persistence-layer signal codes inspected by
the handlers; P2002 is the uniqueness violation on create, P2025 the missing
record on update/delete. -/
inductive PrismaError where
  | P2002
  | P2025
deriving DecidableEq, Repr

/-- Comparison used for orderBy date descending: later timestamps first,
Invalid Dates last. -/
def dateDesc (a b : Transaction) : Bool :=
  match a.date, b.date with
  | none, none => true
  | none, some _ => false
  | some _, none => true
  | some x, some y => decide (y ≤ x)

/-- Modelled from the spec: prisma.transaction.findMany with orderBy date
descending (the persistence collaborator, not in src/): all stored
transactions ordered by date, most recent first. -/
def prismaFindMany (store : Store) : List Transaction :=
  store.mergeSort dateDesc

/-- Modelled from the spec: prisma.transaction.findUnique, the lookup of the
single transaction with the given id. -/
def prismaFindUnique (id : String) (store : Store) : Option Transaction :=
  store.find? (fun t => t.id == id)

/-- Modelled from the spec: prisma.transaction.create; the collaborator
enforces id uniqueness, signalling P2002 on a duplicate insert. -/
def prismaCreate (data : Transaction) (store : Store) :
    Except PrismaError (Transaction × Store) :=
  if store.any (fun t => t.id == data.id) then .error .P2002
  else .ok (data, data :: store)

/-- Modelled from the spec: prisma.transaction.update; replaces the mutable
fields of the matching transaction wholesale, keeping its id, and signals
P2025 when no transaction with the given id exists. -/
def prismaUpdate (id : String) (amount : JsNumber) (date : Option Int)
    (descr : JsValue) (store : Store) : Except PrismaError (Transaction × Store) :=
  match store.find? (fun t => t.id == id) with
  | none => .error .P2025
  | some t =>
    let t2 : Transaction := ⟨t.id, amount, date, descr⟩
    .ok (t2, store.map (fun u => if u.id == id then t2 else u))

/-- Modelled from the spec: prisma.transaction.delete; removes the matching
transaction, signalling P2025 when no transaction with the given id exists. -/
def prismaDelete (id : String) (store : Store) : Except PrismaError Store :=
  if store.any (fun t => t.id == id) then
    .ok (store.filter (fun u => ! (u.id == id)))
  else .error .P2025

/-- JSON response bodies produced by the handlers. -/
inductive ResBody where
  | tx (t : Transaction)
  | txs (l : List Transaction)
  | err (e : String)
  | msg (m : String)
deriving DecidableEq, Repr

/-- Outcome of one handler invocation: the HTTP status, the JSON body, the
store after the request, and whether any persistence call was issued. -/
structure HandlerResult where
  status : Nat
  body : ResBody
  store : Store
  dbCalled : Bool
deriving DecidableEq, Repr

/-- Handler for GET /api/transactions (src/server.js lines 26-36). -/
def getAllHandler (store : Store) : HandlerResult :=
  ⟨200, .txs (prismaFindMany store), store, true⟩

/-- Handler for GET /api/transactions/:id (src/server.js lines 39-60). -/
def getHandler (id : String) (store : Store) : HandlerResult :=
  if !isValidObjectId id then
    ⟨400, .err "Invalid transaction ID format", store, false⟩
  else
    match prismaFindUnique id store with
    | none => ⟨404, .err "Transaction not found", store, true⟩
    | some t => ⟨200, .tx t, store, true⟩

/-- Request body of the create operation, destructured as in src/server.js
line 65. -/
structure CreateBody where
  amount : JsValue
  date : JsValue
  description : JsValue
  id : JsValue
deriving DecidableEq, Repr

/-- Handler for POST /api/transactions (src/server.js lines 63-96): presence
check on id, format check (a non-string body id fails ObjectId.isValid, hence
the format branch for non-string values), then the insert, with the P2002
uniqueness signal mapped to 409. -/
def createHandler (b : CreateBody) (store : Store) : HandlerResult :=
  if jsFalsy b.id then
    ⟨400, .err "Transaction ID is required", store, false⟩
  else
    match b.id with
    | .str s =>
      if !isValidObjectId s then
        ⟨400, .err "Invalid transaction ID format", store, false⟩
      else
        match prismaCreate ⟨s, parseFloat b.amount, newDate b.date, b.description⟩ store with
        | .error .P2002 => ⟨409, .err "A transaction with this ID already exists", store, true⟩
        | .error .P2025 => ⟨500, .err "Failed to create transaction", store, true⟩
        | .ok (t, store2) => ⟨201, .tx t, store2, true⟩
    | _ => ⟨400, .err "Invalid transaction ID format", store, false⟩

/-- Request body of the update operation (src/server.js line 102). -/
structure UpdateBody where
  amount : JsValue
  date : JsValue
  description : JsValue
deriving DecidableEq, Repr

/-- Handler for PUT /api/transactions/:id (src/server.js lines 99-127): format
check on the path id, then the update, with the P2025 missing-record signal
mapped to 404. -/
def updateHandler (id : String) (b : UpdateBody) (store : Store) : HandlerResult :=
  if !isValidObjectId id then
    ⟨400, .err "Invalid transaction ID format", store, false⟩
  else
    match prismaUpdate id (parseFloat b.amount) (newDate b.date) b.description store with
    | .error .P2025 => ⟨404, .err "Transaction not found", store, true⟩
    | .error .P2002 => ⟨500, .err "Failed to update transaction", store, true⟩
    | .ok (t, store2) => ⟨200, .tx t, store2, true⟩

/-- Handler for DELETE /api/transactions/:id (src/server.js lines 130-152):
format check on the path id, then the removal, with the P2025 missing-record
signal mapped to 404. -/
def deleteHandler (id : String) (store : Store) : HandlerResult :=
  if !isValidObjectId id then
    ⟨400, .err "Invalid transaction ID format", store, false⟩
  else
    match prismaDelete id store with
    | .error .P2025 => ⟨404, .err "Transaction not found", store, true⟩
    | .error .P2002 => ⟨500, .err "Failed to delete transaction", store, true⟩
    | .ok store2 => ⟨200, .msg "Transaction deleted successfully", store2, true⟩

/-- A stored amount is a finite number. -/
def finiteAmount : JsNumber → Bool
  | .finite _ => true
  | _ => false

end FinanceApi

namespace FinanceApi

/-- A string in the valid identifier format is not the empty string, hence not
falsy as a body value. -/
theorem valid_id_not_falsy {s : String} (h : isValidObjectId s = true) :
    jsFalsy (.str s) = false := by
  simp only [jsFalsy]
  rw [beq_eq_false_iff_ne]
  intro he
  subst he
  exact absurd h (by decide)

/-- C1: For every id supplied to Get, Update, or Delete, the handler issues a
persistence call if and only if the id passes the identifier format check
(a 24-character hexadecimal string); an id not of that form is answered with
InvalidIdentifier (HTTP 400) with the store unchanged and no persistence
call. -/
theorem id_validation_gates_persistence (id : String) (b : UpdateBody) (store : Store) :
    ((getHandler id store).dbCalled = isValidObjectId id
      ∧ (updateHandler id b store).dbCalled = isValidObjectId id
      ∧ (deleteHandler id store).dbCalled = isValidObjectId id)
    ∧ (isValidObjectId id = false →
        getHandler id store = ⟨400, .err "Invalid transaction ID format", store, false⟩
        ∧ updateHandler id b store = ⟨400, .err "Invalid transaction ID format", store, false⟩
        ∧ deleteHandler id store = ⟨400, .err "Invalid transaction ID format", store, false⟩) := by
  cases h : isValidObjectId id with
  | false =>
    exact ⟨by simp [getHandler, updateHandler, deleteHandler, h],
           fun _ => by simp [getHandler, updateHandler, deleteHandler, h]⟩
  | true =>
    refine ⟨⟨?_, ?_, ?_⟩, fun hc => by simp [h] at hc⟩
    · cases hf : prismaFindUnique id store <;> simp [getHandler, h, hf]
    · cases hu : prismaUpdate id (parseFloat b.amount) (newDate b.date) b.description store with
      | error e => cases e <;> simp [updateHandler, h, hu]
      | ok p => simp [updateHandler, h, hu]
    · cases hd : prismaDelete id store with
      | error e => cases e <;> simp [deleteHandler, h, hd]
      | ok s2 => simp [deleteHandler, h, hd]

/-- Witness for C1: the malformed id "not-an-id" is rejected with 400 and no
persistence call, while a well-formed id reaches the persistence layer. -/
theorem id_validation_gates_persistence_witness :
    getHandler "not-an-id" [] = ⟨400, .err "Invalid transaction ID format", [], false⟩
    ∧ (getHandler "aaaaaaaaaaaaaaaaaaaaaaaa" []).dbCalled = true := by
  constructor
  · exact ((id_validation_gates_persistence "not-an-id" ⟨.undef, .undef, .undef⟩ []).2
      (by decide)).1
  · have h := (id_validation_gates_persistence "aaaaaaaaaaaaaaaaaaaaaaaa"
      ⟨.undef, .undef, .undef⟩ []).1.1
    rw [h]
    decide

/-- C7: Create validates in a fixed order: a falsy id is answered first with
MissingIdentifier (400), then an id failing the format check is answered with
InvalidIdentifier (400), both short-circuiting before any persistence call; a
persistence call is issued exactly when both checks pass. -/
theorem create_validation_order (b : CreateBody) (store : Store) :
    (jsFalsy b.id = true →
      createHandler b store = ⟨400, .err "Transaction ID is required", store, false⟩)
    ∧ (jsFalsy b.id = false → isValidObjectIdVal b.id = false →
      createHandler b store = ⟨400, .err "Invalid transaction ID format", store, false⟩)
    ∧ (createHandler b store).dbCalled = (!jsFalsy b.id && isValidObjectIdVal b.id) := by
  cases hf : jsFalsy b.id with
  | true =>
    refine ⟨fun _ => by simp [createHandler, hf], fun hc => by simp [hf] at hc, ?_⟩
    simp [createHandler, hf]
  | false =>
    refine ⟨fun hc => by simp [hf] at hc, ?_, ?_⟩
    · intro _ hvv
      cases hid : b.id with
      | str s =>
        rw [hid] at hvv hf
        simp only [isValidObjectIdVal] at hvv
        simp [createHandler, hid, hf, hvv]
      | undef => rw [hid] at hf; simp [jsFalsy] at hf
      | null => rw [hid] at hf; simp [jsFalsy] at hf
      | num n => rw [hid] at hf; simp [createHandler, hid, hf]
      | bool b2 => rw [hid] at hf; simp [createHandler, hid, hf]
    · cases hid : b.id with
      | str s =>
        rw [hid] at hf
        cases hv : isValidObjectId s with
        | false => simp [createHandler, hid, hf, hv, isValidObjectIdVal]
        | true =>
          cases hc : prismaCreate ⟨s, parseFloat b.amount, newDate b.date, b.description⟩ store with
          | error e => cases e <;> simp [createHandler, hid, hf, hv, hc, isValidObjectIdVal]
          | ok p => simp [createHandler, hid, hf, hv, hc, isValidObjectIdVal]
      | undef => rw [hid] at hf; simp [jsFalsy] at hf
      | null => rw [hid] at hf; simp [jsFalsy] at hf
      | num n => rw [hid] at hf; simp [createHandler, hid, hf, isValidObjectIdVal]
      | bool b2 => rw [hid] at hf; simp [createHandler, hid, hf, isValidObjectIdVal]

/-- Witness for C7: a create with an absent id is answered with
MissingIdentifier, and one with a present but malformed id with
InvalidIdentifier, both leaving the store empty. -/
theorem create_validation_order_witness :
    createHandler ⟨.num (.finite 1), .num (.finite 0), .str "d", .undef⟩ []
      = ⟨400, .err "Transaction ID is required", [], false⟩
    ∧ createHandler ⟨.num (.finite 1), .num (.finite 0), .str "d", .str "zzz"⟩ []
      = ⟨400, .err "Invalid transaction ID format", [], false⟩ := by
  constructor
  · exact (create_validation_order ⟨.num (.finite 1), .num (.finite 0), .str "d", .undef⟩
      []).1 (by decide)
  · exact (create_validation_order ⟨.num (.finite 1), .num (.finite 0), .str "d", .str "zzz"⟩
      []).2.1 (by decide) (by decide)

/-- C10: Create's presence check tests JavaScript falsiness of the id, so a
request whose id is the empty string or the number 0 is answered with
MissingIdentifier ("Transaction ID is required", HTTP 400) rather than
InvalidIdentifier, even though the id field is present in the body. -/
theorem falsy_id_reported_missing (amount date descr : JsValue) (store : Store) :
    createHandler ⟨amount, date, descr, .str ""⟩ store
      = ⟨400, .err "Transaction ID is required", store, false⟩
    ∧ createHandler ⟨amount, date, descr, .num (.finite 0)⟩ store
      = ⟨400, .err "Transaction ID is required", store, false⟩ := by
  exact ⟨by simp [createHandler, jsFalsy], by simp [createHandler, jsFalsy]⟩

end FinanceApi

namespace FinanceApi

/-- Every transaction in the store after a create is either an old one or
carries the coerced amount and date of the request body. -/
theorem mem_createHandler_store {b : CreateBody} {store : Store} {t : Transaction}
    (ht : t ∈ (createHandler b store).store) :
    t ∈ store ∨ (t.amount = parseFloat b.amount ∧ t.date = newDate b.date) := by
  by_cases hf : jsFalsy b.id = true
  · simp [createHandler, hf] at ht
    exact .inl ht
  · rw [Bool.not_eq_true] at hf
    cases hid : b.id with
    | str s =>
      rw [hid] at hf
      by_cases hv : isValidObjectId s = true
      · by_cases ha : store.any (fun u => u.id == s) = true
        · simp [createHandler, prismaCreate, hid, hf, hv, ha] at ht
          exact .inl ht
        · rw [Bool.not_eq_true] at ha
          simp [createHandler, prismaCreate, hid, hf, hv, ha] at ht
          rcases ht with h | h
          · exact .inr (by rw [h]; exact ⟨rfl, rfl⟩)
          · exact .inl h
      · rw [Bool.not_eq_true] at hv
        simp [createHandler, hid, hf, hv] at ht
        exact .inl ht
    | undef => rw [hid] at hf; simp [jsFalsy] at hf
    | null => rw [hid] at hf; simp [jsFalsy] at hf
    | num n => rw [hid] at hf; simp [createHandler, hid, hf] at ht; exact .inl ht
    | bool b2 => rw [hid] at hf; simp [createHandler, hid, hf] at ht; exact .inl ht

/-- Every transaction in the store after an update is either an old one or
carries the coerced amount and date of the request body. -/
theorem mem_updateHandler_store {id : String} {ub : UpdateBody} {store : Store}
    {t : Transaction} (ht : t ∈ (updateHandler id ub store).store) :
    t ∈ store ∨ (t.amount = parseFloat ub.amount ∧ t.date = newDate ub.date) := by
  by_cases hv : isValidObjectId id = true
  · cases hfind : store.find? (fun u => u.id == id) with
    | none =>
      simp [updateHandler, prismaUpdate, hv, hfind] at ht
      exact .inl ht
    | some u =>
      simp [updateHandler, prismaUpdate, hv, hfind] at ht
      rcases ht with ⟨w, hw, hwt⟩
      by_cases hwid : w.id = id
      · rw [if_pos hwid] at hwt
        exact .inr (by rw [← hwt]; exact ⟨rfl, rfl⟩)
      · rw [if_neg hwid] at hwt
        exact .inl (hwt ▸ hw)
  · rw [Bool.not_eq_true] at hv
    simp [updateHandler, hv] at ht
    exact .inl ht

/-- C2 counterexample: a create whose amount and date do not parse stores a
transaction whose amount is NaN and whose date is an Invalid Date, so the
invariant as stated over all possible request-body values fails on the code. -/
theorem coercion_can_store_nonfinite :
    (createHandler ⟨.str "x", .str "x", .str "d", .str "aaaaaaaaaaaaaaaaaaaaaaaa"⟩ []).store
      = [⟨"aaaaaaaaaaaaaaaaaaaaaaaa", .nan, none, .str "d"⟩]
    ∧ finiteAmount .nan = false
    ∧ (none : Option Int).isSome = false
    ∧ ¬ (∀ (b : CreateBody) (store : Store),
        ∀ t ∈ (createHandler b store).store,
          finiteAmount t.amount = true ∧ t.date.isSome = true) := by
  refine ⟨by decide, rfl, rfl, fun hall => ?_⟩
  have hm := hall ⟨.str "x", .str "x", .str "d", .str "aaaaaaaaaaaaaaaaaaaaaaaa"⟩ []
    ⟨"aaaaaaaaaaaaaaaaaaaaaaaa", .nan, none, .str "d"⟩ (by decide)
  exact absurd hm.1 (by decide)

/-- C2 amended: after the Create or Update coercion step the stored amount is
a finite number and the stored date a valid timestamp, provided the supplied
amount coerces to a finite number and the supplied date to a valid timestamp
and the prior store already satisfies the invariant; for unparseable input
the code stores NaN amounts and Invalid Dates without rejection. -/
theorem stored_coercions_valid_of_coercible (b : CreateBody) (ub : UpdateBody)
    (id : String) (store : Store)
    (hba : finiteAmount (parseFloat b.amount) = true)
    (hbd : (newDate b.date).isSome = true)
    (hua : finiteAmount (parseFloat ub.amount) = true)
    (hud : (newDate ub.date).isSome = true)
    (hs : ∀ t ∈ store, finiteAmount t.amount = true ∧ t.date.isSome = true) :
    (∀ t ∈ (createHandler b store).store,
      finiteAmount t.amount = true ∧ t.date.isSome = true)
    ∧ (∀ t ∈ (updateHandler id ub store).store,
      finiteAmount t.amount = true ∧ t.date.isSome = true) := by
  refine ⟨fun t ht => ?_, fun t ht => ?_⟩
  · rcases mem_createHandler_store ht with h | ⟨ha, hd⟩
    · exact hs t h
    · exact ⟨by rw [ha]; exact hba, by rw [hd]; exact hbd⟩
  · rcases mem_updateHandler_store ht with h | ⟨ha, hd⟩
    · exact hs t h
    · exact ⟨by rw [ha]; exact hua, by rw [hd]; exact hud⟩

/-- Witness for the amended C2: the transaction stored by a create with
coercible fields over the empty store has a finite amount and a valid date. -/
theorem stored_coercions_valid_of_coercible_witness :
    finiteAmount (Transaction.mk "aaaaaaaaaaaaaaaaaaaaaaaa" (.finite 5) (some 1000)
        (.str "d")).amount = true
    ∧ (Transaction.mk "aaaaaaaaaaaaaaaaaaaaaaaa" (.finite 5) (some 1000)
        (.str "d")).date.isSome = true :=
  (stored_coercions_valid_of_coercible
    ⟨.num (.finite 5), .num (.finite 1000), .str "d", .str "aaaaaaaaaaaaaaaaaaaaaaaa"⟩
    ⟨.num (.finite 5), .num (.finite 1000), .str "d"⟩
    "aaaaaaaaaaaaaaaaaaaaaaaa" []
    (by decide) (by decide) (by decide) (by decide)
    (fun t ht => nomatch ht)).1
    (Transaction.mk "aaaaaaaaaaaaaaaaaaaaaaaa" (.finite 5) (some 1000) (.str "d"))
    (by decide)

/-- C3: For a request body whose id is a fresh valid-format string and whose
amount and date are coercible, Create succeeds with HTTP 201 storing the
coerced transaction, and a subsequent Get with the same id returns exactly
that transaction: id, amount, date and description all equal (round trip). -/
theorem create_then_get_roundtrip (b : CreateBody) (store : Store) (s : String)
    (hid : b.id = .str s)
    (hv : isValidObjectId s = true)
    (hfresh : store.any (fun t => t.id == s) = false)
    (_hba : finiteAmount (parseFloat b.amount) = true)
    (_hbd : (newDate b.date).isSome = true) :
    createHandler b store
      = ⟨201, .tx ⟨s, parseFloat b.amount, newDate b.date, b.description⟩,
         ⟨s, parseFloat b.amount, newDate b.date, b.description⟩ :: store, true⟩
    ∧ getHandler s (⟨s, parseFloat b.amount, newDate b.date, b.description⟩ :: store)
      = ⟨200, .tx ⟨s, parseFloat b.amount, newDate b.date, b.description⟩,
         ⟨s, parseFloat b.amount, newDate b.date, b.description⟩ :: store, true⟩ := by
  have hnf : jsFalsy (JsValue.str s) = false := valid_id_not_falsy hv
  constructor
  · simp [createHandler, hid, hnf, hv, prismaCreate, hfresh]
  · simp [getHandler, hv, prismaFindUnique, List.find?]

/-- Witness for C3: creating amount 5 at epoch 1000 with a fresh valid id over
the empty store and then getting it returns the stored transaction. -/
theorem create_then_get_roundtrip_witness :
    createHandler ⟨.num (.finite 5), .num (.finite 1000), .str "lunch",
        .str "aaaaaaaaaaaaaaaaaaaaaaaa"⟩ []
      = ⟨201, .tx ⟨"aaaaaaaaaaaaaaaaaaaaaaaa", .finite 5, some 1000, .str "lunch"⟩,
         [⟨"aaaaaaaaaaaaaaaaaaaaaaaa", .finite 5, some 1000, .str "lunch"⟩], true⟩
    ∧ getHandler "aaaaaaaaaaaaaaaaaaaaaaaa"
        [⟨"aaaaaaaaaaaaaaaaaaaaaaaa", .finite 5, some 1000, .str "lunch"⟩]
      = ⟨200, .tx ⟨"aaaaaaaaaaaaaaaaaaaaaaaa", .finite 5, some 1000, .str "lunch"⟩,
         [⟨"aaaaaaaaaaaaaaaaaaaaaaaa", .finite 5, some 1000, .str "lunch"⟩], true⟩ :=
  create_then_get_roundtrip
    ⟨.num (.finite 5), .num (.finite 1000), .str "lunch", .str "aaaaaaaaaaaaaaaaaaaaaaaa"⟩
    [] "aaaaaaaaaaaaaaaaaaaaaaaa" rfl (by decide) rfl (by decide) (by decide)

/-- C4: Creating with a valid-format id that is already stored fails with
DuplicateIdentifier (HTTP 409) leaving the store unchanged; in particular,
creating twice with the same fresh id yields 201 the first time and 409 the
second. -/
theorem create_duplicate_conflict (b b2 : CreateBody) (store : Store) (s : String)
    (hid : b.id = .str s) (hid2 : b2.id = .str s)
    (hv : isValidObjectId s = true) :
    (store.any (fun t => t.id == s) = true →
      createHandler b store
        = ⟨409, .err "A transaction with this ID already exists", store, true⟩)
    ∧ (store.any (fun t => t.id == s) = false →
      (createHandler b store).status = 201
      ∧ createHandler b2 (createHandler b store).store
        = ⟨409, .err "A transaction with this ID already exists",
           (createHandler b store).store, true⟩) := by
  have hnf : jsFalsy (JsValue.str s) = false := valid_id_not_falsy hv
  constructor
  · intro hdup
    simp [createHandler, hid, hnf, hv, prismaCreate, hdup]
  · intro hfresh
    have hcr : createHandler b store
        = ⟨201, .tx ⟨s, parseFloat b.amount, newDate b.date, b.description⟩,
           ⟨s, parseFloat b.amount, newDate b.date, b.description⟩ :: store, true⟩ := by
      simp [createHandler, hid, hnf, hv, prismaCreate, hfresh]
    refine ⟨by rw [hcr], ?_⟩
    rw [hcr]
    simp [createHandler, hid2, hnf, hv, prismaCreate, List.any_cons]

/-- Witness for C4: with a fresh valid id over the empty store, the first
create returns 201 and the second returns 409. -/
theorem create_duplicate_conflict_witness :
    (createHandler ⟨.num (.finite 5), .num (.finite 1000), .str "d",
        .str "aaaaaaaaaaaaaaaaaaaaaaaa"⟩ []).status = 201
    ∧ createHandler ⟨.num (.finite 7), .num (.finite 2000), .str "e",
        .str "aaaaaaaaaaaaaaaaaaaaaaaa"⟩
        (createHandler ⟨.num (.finite 5), .num (.finite 1000), .str "d",
          .str "aaaaaaaaaaaaaaaaaaaaaaaa"⟩ []).store
      = ⟨409, .err "A transaction with this ID already exists",
         (createHandler ⟨.num (.finite 5), .num (.finite 1000), .str "d",
           .str "aaaaaaaaaaaaaaaaaaaaaaaa"⟩ []).store, true⟩ :=
  (create_duplicate_conflict
    ⟨.num (.finite 5), .num (.finite 1000), .str "d", .str "aaaaaaaaaaaaaaaaaaaaaaaa"⟩
    ⟨.num (.finite 7), .num (.finite 2000), .str "e", .str "aaaaaaaaaaaaaaaaaaaaaaaa"⟩
    [] "aaaaaaaaaaaaaaaaaaaaaaaa" rfl rfl (by decide)).2 rfl

end FinanceApi

namespace FinanceApi

/-- C5: For a well-formed id for which no transaction is stored, Get, Update
and Delete each fail with NotFound (HTTP 404) and leave the store unchanged. -/
theorem unknown_id_not_found (id : String) (ub : UpdateBody) (store : Store)
    (hv : isValidObjectId id = true)
    (hnone : store.find? (fun t => t.id == id) = none) :
    getHandler id store = ⟨404, .err "Transaction not found", store, true⟩
    ∧ updateHandler id ub store = ⟨404, .err "Transaction not found", store, true⟩
    ∧ deleteHandler id store = ⟨404, .err "Transaction not found", store, true⟩ := by
  have hany : store.any (fun t => t.id == id) = false := by
    rw [List.any_eq_false]
    intro t ht
    have := List.find?_eq_none.mp hnone t ht
    simpa using this
  refine ⟨?_, ?_, ?_⟩
  · simp [getHandler, hv, prismaFindUnique, hnone]
  · simp [updateHandler, prismaUpdate, hv, hnone]
  · simp [deleteHandler, prismaDelete, hv, hany]

/-- Witness for C5: a valid-format id over the empty store gives 404 on all
three operations. -/
theorem unknown_id_not_found_witness :
    getHandler "aaaaaaaaaaaaaaaaaaaaaaaa" []
      = ⟨404, .err "Transaction not found", [], true⟩
    ∧ updateHandler "aaaaaaaaaaaaaaaaaaaaaaaa" ⟨.undef, .undef, .undef⟩ []
      = ⟨404, .err "Transaction not found", [], true⟩
    ∧ deleteHandler "aaaaaaaaaaaaaaaaaaaaaaaa" []
      = ⟨404, .err "Transaction not found", [], true⟩ :=
  unknown_id_not_found "aaaaaaaaaaaaaaaaaaaaaaaa" ⟨.undef, .undef, .undef⟩ []
    (by decide) rfl

/-- The date-descending comparison is total. -/
theorem dateDesc_total (a b : Transaction) : (dateDesc a b || dateDesc b a) = true := by
  rcases a with ⟨_, _, ad, _⟩
  rcases b with ⟨_, _, bd, _⟩
  cases ad <;> cases bd <;> simp [dateDesc]
  all_goals omega

/-- The date-descending comparison is transitive. -/
theorem dateDesc_trans (a b c : Transaction)
    (h1 : dateDesc a b = true) (h2 : dateDesc b c = true) : dateDesc a c = true := by
  rcases a with ⟨_, _, ad, _⟩
  rcases b with ⟨_, _, bd, _⟩
  rcases c with ⟨_, _, cd, _⟩
  cases ad <;> cases bd <;> cases cd <;> simp [dateDesc] at h1 h2 ⊢
  all_goals omega

/-- C6: List responds 200 with the stored transactions, a permutation of the
store ordered by date descending (most recent first, Invalid Dates last), for
every store state and hence independently of insertion order. -/
theorem list_sorted_by_date_desc (store : Store) :
    getAllHandler store = ⟨200, .txs (prismaFindMany store), store, true⟩
    ∧ (prismaFindMany store).Perm store
    ∧ List.Pairwise (fun a b => dateDesc a b = true) (prismaFindMany store) := by
  refine ⟨rfl, List.mergeSort_perm store dateDesc, ?_⟩
  exact List.sorted_mergeSort dateDesc_trans dateDesc_total store

/-- C8: A successful Update (valid id, transaction found) answers 200 with a
transaction keeping the found transaction's id and carrying the freshly
coerced amount, date and description wholesale; the store rewrites only the
matching id, every other stored transaction being untouched in both
directions. -/
theorem update_replaces_fields (id : String) (ub : UpdateBody) (store : Store)
    (t : Transaction)
    (hv : isValidObjectId id = true)
    (hfind : store.find? (fun u => u.id == id) = some t) :
    updateHandler id ub store
      = ⟨200, .tx ⟨t.id, parseFloat ub.amount, newDate ub.date, ub.description⟩,
         store.map (fun u => if u.id == id then
           ⟨t.id, parseFloat ub.amount, newDate ub.date, ub.description⟩ else u), true⟩
    ∧ (∀ u ∈ store, u.id ≠ id → u ∈ (updateHandler id ub store).store)
    ∧ (∀ v ∈ (updateHandler id ub store).store, v.id ≠ id → v ∈ store) := by
  have he : updateHandler id ub store
      = ⟨200, .tx ⟨t.id, parseFloat ub.amount, newDate ub.date, ub.description⟩,
         store.map (fun u => if u.id == id then
           ⟨t.id, parseFloat ub.amount, newDate ub.date, ub.description⟩ else u), true⟩ := by
    simp [updateHandler, prismaUpdate, hv, hfind]
  have hti : t.id = id := by
    have := List.find?_some hfind
    simpa using this
  refine ⟨he, ?_, ?_⟩
  · intro u hu hne
    rw [he]
    exact List.mem_map.mpr ⟨u, hu, by simp [hne]⟩
  · intro v hvm hne
    rw [he] at hvm
    rcases List.mem_map.mp hvm with ⟨u, hu, huv⟩
    by_cases hui : u.id = id
    · exfalso
      apply hne
      rw [← huv]
      simp [hui, hti]
    · rw [if_neg (by simp [hui])] at huv
      exact huv ▸ hu

/-- Witness for C8: updating the single stored transaction replaces its
amount, date and description and keeps its id. -/
theorem update_replaces_fields_witness :
    updateHandler "aaaaaaaaaaaaaaaaaaaaaaaa"
        ⟨.num (.finite 7), .num (.finite 2000), .str "e"⟩
        [⟨"aaaaaaaaaaaaaaaaaaaaaaaa", .finite 5, some 1000, .str "d"⟩]
      = ⟨200, .tx ⟨"aaaaaaaaaaaaaaaaaaaaaaaa", .finite 7, some 2000, .str "e"⟩,
         [⟨"aaaaaaaaaaaaaaaaaaaaaaaa", .finite 7, some 2000, .str "e"⟩], true⟩ := by
  have h := (update_replaces_fields "aaaaaaaaaaaaaaaaaaaaaaaa"
    ⟨.num (.finite 7), .num (.finite 2000), .str "e"⟩
    [⟨"aaaaaaaaaaaaaaaaaaaaaaaa", .finite 5, some 1000, .str "d"⟩]
    ⟨"aaaaaaaaaaaaaaaaaaaaaaaa", .finite 5, some 1000, .str "d"⟩
    (by decide) (by decide)).1
  rw [h]
  decide

/-- C9: After a successful Delete of a stored id (HTTP 200 with the
confirmation message), a Get with the same id yields NotFound (HTTP 404). -/
theorem delete_then_get_not_found (id : String) (store : Store)
    (hv : isValidObjectId id = true)
    (hmem : store.any (fun t => t.id == id) = true) :
    deleteHandler id store
      = ⟨200, .msg "Transaction deleted successfully",
         store.filter (fun u => ! (u.id == id)), true⟩
    ∧ getHandler id (deleteHandler id store).store
      = ⟨404, .err "Transaction not found", (deleteHandler id store).store, true⟩ := by
  have he : deleteHandler id store
      = ⟨200, .msg "Transaction deleted successfully",
         store.filter (fun u => ! (u.id == id)), true⟩ := by
    simp [deleteHandler, prismaDelete, hv, hmem]
  refine ⟨he, ?_⟩
  rw [he]
  have hnone : (store.filter (fun u => ! (u.id == id))).find? (fun t => t.id == id)
      = none := by
    rw [List.find?_eq_none]
    intro x hx
    have hxf := (List.mem_filter.mp hx).2
    simp at hxf ⊢
    exact hxf
  simp [getHandler, hv, prismaFindUnique, hnone]

/-- Witness for C9: deleting the single stored transaction returns the
confirmation and a following get of that id returns 404. -/
theorem delete_then_get_not_found_witness :
    deleteHandler "aaaaaaaaaaaaaaaaaaaaaaaa"
        [⟨"aaaaaaaaaaaaaaaaaaaaaaaa", .finite 5, some 1000, .str "d"⟩]
      = ⟨200, .msg "Transaction deleted successfully", [], true⟩
    ∧ getHandler "aaaaaaaaaaaaaaaaaaaaaaaa" []
      = ⟨404, .err "Transaction not found", [], true⟩ := by
  have h := delete_then_get_not_found "aaaaaaaaaaaaaaaaaaaaaaaa"
    [⟨"aaaaaaaaaaaaaaaaaaaaaaaa", .finite 5, some 1000, .str "d"⟩]
    (by decide) (by decide)
  have hs : (deleteHandler "aaaaaaaaaaaaaaaaaaaaaaaa"
      [⟨"aaaaaaaaaaaaaaaaaaaaaaaa", .finite 5, some 1000, .str "d"⟩]).store = [] := by
    rw [h.1]
    decide
  constructor
  · rw [h.1]
    decide
  · have h2 := h.2
    rw [hs] at h2
    exact h2

end FinanceApi
